import Mathlib

/-!
Shallow embedding of the controller's runtime core, translated from the
repository sources:

* `src/xrpl_controller/strategies/strategy.py` — the legacy `Strategy` base
  class (network partitions, communication matrix, port dictionary).
* `src/xrpl_controller/packet_server.py` — the legacy `PacketService` RPC
  handler.
* `src/rocket_controller/iteration_type.py` — `TimeBasedIteration` /
  `LedgerBasedIteration` (iteration lifecycle, ledger validation map).
* `src/rocket_controller/csv_logger.py` — `CSVLogger.log_row` / `log_rows`.

Python exceptions are modelled by an explicit error type; functions that can
raise return either `Except` or a pair of the (possibly partially mutated)
state and an optional error, matching where the Python code mutates `self`
relative to the raise site.  External side effects (interceptor subprocess,
timers, container cleanup, result logging) are modelled as an emitted list of
effect tokens.
-/

/-- Kinds of Python exceptions the embedded code can raise.  `custom` stands
for an arbitrary exception raised by user-supplied strategy code. -/
inductive PyErr where
  | valueError
  | keyError
  | indexError
  | attributeError
  | custom (msg : String)
deriving DecidableEq

/-- MAX_U32 as defined in both `strategy.py` and `packet_server.py`:
`MAX_U32 = 2**32 - 1`. -/
def MAX_U32 : Nat := 2 ^ 32 - 1

/-- Modelled from the spec: `flatten` comes from `xrpl_controller/core.py`,
which is not under `src/`.  Section 8 of the spec uses `flatten(parts)` as the
concatenation of the sub-lists, preserving order and multiplicity (its length
is compared against the node count in `partition_network`). -/
def flatten {α : Type} (l : List (List α)) : List α := l.flatten

/-- Insert/overwrite a key in an association list, mirroring Python dict
assignment: an existing key keeps its position and gets the new value, a new
key is appended (insertion order). -/
def dictInsert {β : Type} : List (Nat × β) → Nat → β → List (Nat × β)
  | [], k, v => [(k, v)]
  | (k', v') :: rest, k, v =>
      if k' = k then (k, v) :: rest else (k', v') :: dictInsert rest k v

/-- Python dict lookup on an association list (keys are unique by
construction, so first match suffices). -/
def dictLookup {β : Type} : List (Nat × β) → Nat → Option β
  | [], _ => none
  | (k', v) :: rest, k => if k' = k then some v else dictLookup rest k

/-- Mutate the value stored under an existing key, mirroring Python
`m[k] = v` on a key that is already present; absent keys leave the dict
unchanged (the embedded code only calls this after a successful lookup). -/
def dictSet {β : Type} : List (Nat × β) → Nat → β → List (Nat × β)
  | [], _, _ => []
  | (k', v') :: rest, k, v =>
      if k' = k then (k, v) :: rest else (k', v') :: dictSet rest k v

/-- Modelled from the spec: `SocketAddress` from
`xrpl_controller/validator_node_info.py` (not under `src/`), a `(host, port)`
pair (spec section 3). -/
structure SocketAddress where
  host : String
  port : Nat
deriving DecidableEq

/-- Modelled from the spec: `ValidatorKeyData` from
`xrpl_controller/validator_node_info.py` (not under `src/`): status/key/pub/
validation strings treated as opaque (spec section 3). -/
structure ValidatorKeyData where
  status : String
  validation_key : String
  validation_private_key : String
  validation_public_key : String
  validation_seed : String
deriving DecidableEq

/-- Modelled from the spec: `ValidatorNode` from
`xrpl_controller/validator_node_info.py` (not under `src/`): four socket
addresses (peer, websocket-public, websocket-admin, rpc) plus the key bundle,
in the constructor order used by `tests/unit/test_strategy.py`. -/
structure ValidatorNode where
  peer : SocketAddress
  ws_public : SocketAddress
  ws_admin : SocketAddress
  rpc : SocketAddress
  validator_key_data : ValidatorKeyData
deriving DecidableEq

/-- State of the legacy `Strategy` base class
(`src/xrpl_controller/strategies/strategy.py`, `__init__`). -/
structure StrategyState where
  validator_node_list : List ValidatorNode
  node_amount : Nat
  network_partitions : List (List Nat)
  port_dict : List (Nat × Nat)
  communication_matrix : List (List Bool)
  auto_partition : Bool
deriving DecidableEq

/-- The `Strategy.__init__` state: empty lists, zero nodes,
`auto_partition = True` by default. -/
def initStrategy : StrategyState :=
  { validator_node_list := []
  , node_amount := 0
  , network_partitions := []
  , port_dict := []
  , communication_matrix := []
  , auto_partition := true }

/-- Embeds `Strategy.update_network` (strategy.py lines 75-93).  Note that the
code uses `node.rpc.port` (with a TODO saying it should become
`node.peer.port`), builds `port_dict` by enumeration, and initialises the
communication matrix to all-`True` — including the diagonal. -/
def update_network (s : StrategyState) (nodes : List ValidatorNode) : StrategyState :=
  let ports := nodes.map (fun n => n.rpc.port)
  { s with
    validator_node_list := nodes
  , node_amount := nodes.length
  , network_partitions := [ports]
  , port_dict := ports.enum.foldl (fun d p => dictInsert d p.2 p.1) []
  , communication_matrix :=
      List.replicate nodes.length (List.replicate nodes.length true) }

/-- Python `set(a) == set(b)`: the two lists have the same members. -/
def setEqB (a b : List Nat) : Bool :=
  a.all (fun x => decide (x ∈ b)) && b.all (fun x => decide (x ∈ a))

/-- Port `p` resolves through the dictionary to an index inside an
`n`-by-`n` matrix. -/
def portOkB (d : List (Nat × Nat)) (n p : Nat) : Bool :=
  match dictLookup d p with
  | some i => decide (i < n)
  | none => false

/-- One assignment `communication_matrix[port_dict[i]][port_dict[j]] = True`
from the loop body of `partition_network`: a missing port raises `KeyError`,
an out-of-range index raises `IndexError`, otherwise the cell is set. -/
def setCell (s : StrategyState) (iPort jPort : Nat) : StrategyState × Option PyErr :=
  match dictLookup s.port_dict iPort with
  | none => (s, some PyErr.keyError)
  | some i =>
    match dictLookup s.port_dict jPort with
    | none => (s, some PyErr.keyError)
    | some j =>
      match s.communication_matrix.get? i with
      | none => (s, some PyErr.indexError)
      | some row =>
        if j < row.length then
          ({ s with communication_matrix :=
              s.communication_matrix.set i (row.set j true) }, none)
        else (s, some PyErr.indexError)

/-- Inner loop `for j in partition` of `partition_network`. -/
def setCells : StrategyState → Nat → List Nat → StrategyState × Option PyErr
  | s, _, [] => (s, none)
  | s, i, j :: js =>
    match setCell s i j with
    | (s', none) => setCells s' i js
    | (s', some e) => (s', some e)

/-- Middle loop `for i in partition` of `partition_network`. -/
def setPart : StrategyState → List Nat → List Nat → StrategyState × Option PyErr
  | s, [], _ => (s, none)
  | s, i :: is, part =>
    match setCells s i part with
    | (s', none) => setPart s' is part
    | (s', some e) => (s', some e)

/-- Outer loop `for partition in partitions` of `partition_network`. -/
def setParts : StrategyState → List (List Nat) → StrategyState × Option PyErr
  | s, [] => (s, none)
  | s, p :: ps =>
    match setPart s p p with
    | (s', none) => setParts s' ps
    | (s', some e) => (s', some e)

/-- Embeds `Strategy.partition_network` (strategy.py lines 28-54).  The
validity check raises `ValueError` when the flattened partitions differ, as a
set, from the flattened current partitions, or their number (with
multiplicity) differs from `node_amount`; it runs before any field is
assigned.  On a passing check the code first assigns `network_partitions` and
an all-`False` matrix, then runs the triple loop (which does not exclude
`i == j`, so diagonal cells of each partition get set to `True`). -/
def partition_network (s : StrategyState) (partitions : List (List Nat)) :
    StrategyState × Option PyErr :=
  let flattened := flatten partitions
  if setEqB flattened (flatten s.network_partitions)
      && flattened.length == s.node_amount then
    setParts
      { s with
        network_partitions := partitions
      , communication_matrix :=
          List.replicate s.node_amount (List.replicate s.node_amount false) }
      partitions
  else (s, some PyErr.valueError)

/-- Embeds `Strategy.apply_network_partition` (strategy.py lines 56-73):
returns the action when the matrix allows (from, to), else `MAX_U32`; looks up
both ports in `port_dict` and indexes the matrix, with no self-pair check. -/
def apply_network_partition (s : StrategyState) (action : Nat)
    (peer_from_port peer_to_port : Nat) : Except PyErr Nat :=
  match dictLookup s.port_dict peer_from_port with
  | none => Except.error PyErr.keyError
  | some i =>
    match dictLookup s.port_dict peer_to_port with
    | none => Except.error PyErr.keyError
    | some j =>
      match s.communication_matrix.get? i with
      | none => Except.error PyErr.indexError
      | some row =>
        match row.get? j with
        | none => Except.error PyErr.indexError
        | some b => Except.ok (if b then action else MAX_U32)

/-- The RPC request message `Packet` (packet.proto / spec section 6). -/
structure Packet where
  data : List Nat
  from_port : Nat
  to_port : Nat
deriving DecidableEq

/-- The RPC reply message `PacketAck` (packet.proto / spec section 6). -/
structure PacketAck where
  data : List Nat
  action : Nat
deriving DecidableEq

/-- One row written to the execution log by `PacketService.SendPacket`. -/
structure LogEntry where
  action_label : String
  from_port : Nat
  to_port : Nat
  data : List Nat
deriving DecidableEq

/-- The action column written by `SendPacket`: "Send" for 0, "Drop" for
MAX_U32, otherwise a delay label. -/
def actionLabel (action : Nat) : String :=
  if action = 0 then "Send"
  else if action = MAX_U32 then "Drop"
  else "Delay:" ++ toString action ++ "ms"

/-- Embeds `PacketService.SendPacket` (packet_server.py lines 32-64).  The
strategy's `handle_packet` is called with no surrounding try/except, so a
strategy exception propagates out of the handler.  On success the handler
writes one log row (the writer only exists when `keep_log` was true; calling
it otherwise raises `AttributeError`) and returns the ack. -/
def SendPacket (handle_packet : List Nat → Except PyErr (List Nat × Nat))
    (keep_log : Bool) (request : Packet) : Except PyErr (PacketAck × LogEntry) :=
  match handle_packet request.data with
  | Except.error e => Except.error e
  | Except.ok (data, action) =>
    if keep_log then
      Except.ok
        ({ data := data, action := action }
        , { action_label := actionLabel action
          , from_port := request.from_port
          , to_port := request.to_port
          , data := data })
    else Except.error PyErr.attributeError

/-- Modelled from the spec: the `TMStatusChange` protobuf message (type 34)
from `protos/ripple_pb2` (not under `src/`); fields per spec section 6. -/
structure TMStatusChange where
  newStatus : Nat
  newEvent : Nat
  ledgerSeq : Nat
  ledgerHash : List Nat
  ledgerHashPrevious : List Nat
  networkTime : Nat
  firstSeq : Nat
  lastSeq : Nat
deriving DecidableEq

/-- Entry of the ledger validation map (`LedgerValidationInfo` TypedDict in
iteration_type.py); `time` is an instant, modelled as a natural number. -/
structure LedgerValidationInfo where
  seq : Nat
  time : Nat
deriving DecidableEq

/-- External side effects of the iteration controller, modelled as tokens. -/
inductive Eff where
  | specCheck (iter : Nat)
  | stopInterceptor
  | newResultLogger (iter : Nat)
  | startInterceptor
  | cancelTimer
  | startTimer
  | cleanupContainers
  | aggregateSpecChecks
  | terminateServer
  | logLedgerResult (node : Nat) (seq : Nat) (maxSeq : Int) (validationTime : Int)
deriving DecidableEq

/-- State of `TimeBasedIteration` / `LedgerBasedIteration`
(iteration_type.py, `__init__` plus the setters).  Objects held by the Python
instance (spec checker, log dir, server, timer) are tracked as booleans
recording whether they are installed. -/
structure IterState where
  curIteration : Nat
  maxIterations : Nat
  timeoutSeconds : Nat
  ledgerTimeout : Bool
  maxLedgerSeq : Int
  ledgerValidationMap : List (Nat × LedgerValidationInfo)
  validatorNodes : Option (List ValidatorNode)
  timerActive : Bool
  specCheckerSet : Bool
  logDirSet : Bool
  serverSet : Bool
deriving DecidableEq

/-- Result of an iteration-controller call: the (possibly partially mutated)
state, the emitted effects, and the exception if one was raised. -/
structure IterOutcome where
  st : IterState
  effs : List Eff
  err : Option PyErr
deriving DecidableEq

/-- Python truthiness of `self._validator_nodes`: `None` and the empty list
are both falsy. -/
def isTruthyNodes : Option (List ValidatorNode) → Bool
  | none => false
  | some l => !l.isEmpty

/-- Embeds `_start_timeout_timer` (iteration_type.py lines 74-79): cancel any
running timer, then arm a fresh one. -/
def start_timeout_timer (s : IterState) : IterState × List Eff :=
  ({ s with timerActive := true }
  , (if s.timerActive then [Eff.cancelTimer] else []) ++ [Eff.startTimer])

/-- Embeds `_reset_values` (iteration_type.py lines 145-151): cancel the
timer and clear the ledger validation map.  The validator node list is left
untouched. -/
def reset_values (s : IterState) : IterState × List Eff :=
  ({ s with timerActive := false, ledgerValidationMap := [] }
  , if s.timerActive then [Eff.cancelTimer] else [])

/-- Embeds `add_iteration` (iteration_type.py lines 118-143) for
`TimeBasedIteration` (inherited unchanged by `LedgerBasedIteration`): raise
if the spec checker or log directory is missing, increment `cur_iteration`,
join outstanding logging threads (a no-op here), spec-check the previous
iteration when there is one, then either start the next iteration or shut
everything down. -/
def add_iteration (s : IterState) : IterOutcome :=
  if !s.specCheckerSet then ⟨s, [], some PyErr.valueError⟩
  else if !s.logDirSet then ⟨s, [], some PyErr.valueError⟩
  else
    let cur := s.curIteration + 1
    let s₁ := { s with curIteration := cur }
    let effsSpec := if cur > 1 then [Eff.specCheck (cur - 1)] else []
    if cur ≤ s.maxIterations then
      let p := start_timeout_timer s₁
      ⟨p.1
      , effsSpec
          ++ [Eff.stopInterceptor, Eff.newResultLogger cur, Eff.startInterceptor]
          ++ p.2
      , none⟩
    else
      ⟨s₁
      , effsSpec
          ++ [Eff.stopInterceptor, Eff.cleanupContainers, Eff.aggregateSpecChecks]
          ++ (if s.serverSet then [Eff.terminateServer] else [])
      , none⟩

/-- The accepted-ledger block of `on_status_change`: for an event with
`newEvent == 1` whose `ledgerSeq` exceeds the stored one, the map entry is
updated (a missing entry raises `KeyError`), the timer optionally reset, and
a result-logging thread started. -/
def status_update_step (s : IterState) (status : TMStatusChange)
    (from_id : Nat) (now : Nat) : IterState × List Eff × Option PyErr :=
  if status.newEvent = 1 then
    match dictLookup s.ledgerValidationMap from_id with
    | none => (s, [], some PyErr.keyError)
    | some info =>
      if info.seq < status.ledgerSeq then
        let vTime : Int := (now : Int) - (info.time : Int)
        let newMap :=
          dictSet s.ledgerValidationMap from_id
            { seq := status.ledgerSeq, time := now }
        let s₁ := { s with ledgerValidationMap := newMap }
        let p := if s.ledgerTimeout then start_timeout_timer s₁ else (s₁, [])
        (p.1
        , p.2 ++ [Eff.logLedgerResult from_id status.ledgerSeq s.maxLedgerSeq vTime]
        , none)
      else (s, [], none)
  else (s, [], none)

/-- The final block of `on_status_change`: for ledger-based iterations, when
every stored entry has reached `max_ledger_seq`, reset the state and advance
the iteration. -/
def status_advance_step (s₁ : IterState) (effs₁ : List Eff) : IterOutcome :=
  if s₁.maxLedgerSeq = -1 then ⟨s₁, effs₁, none⟩
  else
    let infos := s₁.ledgerValidationMap.map (fun kv => kv.2)
    if !infos.isEmpty
        && infos.all (fun e => decide (s₁.maxLedgerSeq ≤ (e.seq : Int))) then
      let pr := reset_values s₁
      let out := add_iteration pr.1
      ⟨out.st, effs₁ ++ pr.2 ++ out.effs, out.err⟩
    else ⟨s₁, effs₁, none⟩

/-- Embeds `on_status_change` (iteration_type.py lines 153-215).  Outside the
lock: raise `ValueError` when the validator list is not installed.  Inside the
lock: the late-event guard returns silently on the same condition; then the
accepted-ledger block (`status_update_step`) runs, and unless it raised, the
iteration-advance block (`status_advance_step`) runs on its result. -/
def on_status_change (s : IterState) (status : TMStatusChange)
    (from_id _to_id : Nat) (now : Nat) : IterOutcome :=
  if !(isTruthyNodes s.validatorNodes) then ⟨s, [], some PyErr.valueError⟩
  else if !(isTruthyNodes s.validatorNodes) then ⟨s, [], none⟩
  else
    match status_update_step s status from_id now with
    | (s₁, effs₁, some e) => ⟨s₁, effs₁, some e⟩
    | (s₁, effs₁, none) => status_advance_step s₁ effs₁

/-- One status-change delivery: the message plus its source/destination node
ids and the current instant. -/
structure StatusEvent where
  status : TMStatusChange
  fromId : Nat
  toId : Nat
  now : Nat
deriving DecidableEq

/-- A sequence of independent `on_status_change` calls threaded through the
controller state (each RPC delivery is a separate call; an exception in one
call does not stop later deliveries). -/
def runStatusChanges : IterState → List StatusEvent → IterState
  | s, [] => s
  | s, ev :: evs =>
      runStatusChanges (on_status_change s ev.status ev.fromId ev.toId ev.now).st evs

/-- State of a `CSVLogger` (csv_logger.py): the column list fixed at
construction and the rows written to the file so far. -/
structure CSVLogger where
  columns : List String
  written : List (List String)
deriving DecidableEq

/-- A fresh `CSVLogger`: `__init__` writes the column header row. -/
def mkCSVLogger (columns : List String) : CSVLogger :=
  { columns := columns, written := [columns] }

/-- Embeds `CSVLogger.log_row` (csv_logger.py lines 70-84): raise
`ValueError` (writing nothing) when the row length differs from the column
count, otherwise append the row. -/
def log_row (lg : CSVLogger) (row : List String) : Except PyErr CSVLogger :=
  if lg.columns.length ≠ row.length then Except.error PyErr.valueError
  else Except.ok { lg with written := lg.written ++ [row] }

/-- Embeds `CSVLogger.log_rows` (csv_logger.py lines 86-97): `log_row` each
row in order; an exception aborts the loop, leaving the earlier rows
written. -/
def log_rows : CSVLogger → List (List String) → CSVLogger × Option PyErr
  | lg, [] => (lg, none)
  | lg, row :: rest =>
    match log_row lg row with
    | Except.ok lg' => log_rows lg' rest
    | Except.error e => (lg, some e)

/-- Key data used by the concrete validator nodes below (mirrors
`tests/unit/test_strategy.py`). -/
def keyData : ValidatorKeyData :=
  { status := "status", validation_key := "key", validation_private_key := "K3Y"
  , validation_public_key := "PUB", validation_seed := "T3ST" }

/-- A validator node with the given peer and rpc ports. -/
def nodeWithPorts (peerPort rpcPort : Nat) : ValidatorNode :=
  { peer := { host := "test_peer", port := peerPort }
  , ws_public := { host := "test-ws-pub", port := peerPort + 10 }
  , ws_admin := { host := "test-ws-adm", port := peerPort + 20 }
  , rpc := { host := "test-rpc", port := rpcPort }
  , validator_key_data := keyData }

/-- The three test nodes of `tests/unit/test_strategy.py`: peer ports
10/11/12, rpc ports 40/41/42. -/
def node_0 : ValidatorNode := nodeWithPorts 10 40

/-- Second test node (peer port 11, rpc port 41). -/
def node_1 : ValidatorNode := nodeWithPorts 11 41

/-- Third test node (peer port 12, rpc port 42). -/
def node_2 : ValidatorNode := nodeWithPorts 12 42

/-- Strategy state after `update_network` on the three test nodes. -/
def threeNodes : StrategyState := update_network initStrategy [node_0, node_1, node_2]

/-- Strategy state after `update_network` on three nodes whose rpc ports are
10, 11, 12. -/
def threePorts : StrategyState :=
  update_network initStrategy
    [nodeWithPorts 5 10, nodeWithPorts 6 11, nodeWithPorts 7 12]

/-- Strategy state after `update_network` on three nodes whose rpc ports are
0, 1, 2 — so that partitions written with node identifiers 0..n-1 pass the
port-based validity check. -/
def threeIdx : StrategyState :=
  update_network initStrategy
    [nodeWithPorts 100 0, nodeWithPorts 101 1, nodeWithPorts 102 2]

/-- A strategy whose `handle_packet` raises. -/
def faultyHandler : List Nat → Except PyErr (List Nat × Nat) :=
  fun _ => Except.error (PyErr.custom "strategy fault")

/-- A ledger-based iteration state (max ledger sequence 5) with one node one
validation short of the goal, everything installed and the timer armed. -/
def iterAtGoal : IterState :=
  { curIteration := 1, maxIterations := 5, timeoutSeconds := 60, ledgerTimeout := true
  , maxLedgerSeq := 5, ledgerValidationMap := [(0, { seq := 4, time := 30 })]
  , validatorNodes := some [node_0], timerActive := true
  , specCheckerSet := true, logDirSet := true, serverSet := true }

/-- An accepted-ledger status-change event (`newEvent = 1`) for ledger 5. -/
def lateStatus : TMStatusChange :=
  { newStatus := 2, newEvent := 1, ledgerSeq := 5, ledgerHash := [1]
  , ledgerHashPrevious := [2], networkTime := 1000, firstSeq := 0, lastSeq := 2 }

/-- An accepted-ledger status-change event for ledger 6, arriving after the
iteration transition. -/
def lateStatus2 : TMStatusChange := { lateStatus with ledgerSeq := 6 }

/-- The controller state right after the iteration transition triggered by
delivering ledger 5 to `iterAtGoal`: `_reset_values` has cleared the ledger
validation map and `add_iteration` has started iteration 2. -/
def transitionOut : IterOutcome := on_status_change iterAtGoal lateStatus 0 1 45

/-- A time-based iteration state with two nodes at sequence 1, everything
installed. -/
def lviExample : IterState :=
  { curIteration := 1, maxIterations := 5, timeoutSeconds := 60, ledgerTimeout := false
  , maxLedgerSeq := -1
  , ledgerValidationMap := [(0, { seq := 1, time := 0 }), (1, { seq := 1, time := 0 })]
  , validatorNodes := some [node_0, node_1], timerActive := true
  , specCheckerSet := true, logDirSet := true, serverSet := true }

/-- Delivery of an accepted ledger 3 from node 0 at instant 10. -/
def ev1 : StatusEvent :=
  { status := { lateStatus with ledgerSeq := 3 }, fromId := 0, toId := 1, now := 10 }

/-- Delivery of an accepted ledger 2 (older than the stored 3) from node 0 at
instant 20. -/
def ev2 : StatusEvent :=
  { status := { lateStatus with ledgerSeq := 2 }, fromId := 0, toId := 1, now := 20 }

/-- Well-formedness of a communication matrix: `n` rows of length `n`. -/
def MatrixWF (m : List (List Bool)) (n : Nat) : Prop :=
  m.length = n ∧ ∀ r ∈ m, r.length = n

/-- C1: the legacy `PacketService.SendPacket` has no try/except around the
strategy call, so an exception raised by the strategy's packet handler
propagates out of the handler instead of being caught and turned into a drop
reply `(data, MAX_U32)`. -/
theorem SendPacket_propagates_strategy_exception :
    SendPacket faultyHandler true { data := [1, 2, 3], from_port := 10, to_port := 11 }
      = Except.error (PyErr.custom "strategy fault") := rfl

/-- C2: on a 3-node network whose ports are 0, 1, 2 (so the partition
`[[0], [1, 2]]` passes the port-based validity check), `partition_network`
produces `[[T,F,F],[F,T,T],[F,T,T]]`: off-diagonal entries are true exactly
for nodes sharing a part, but every diagonal entry of a node inside a part is
true as well, because the triple loop does not exclude `i == j` — the claim
expected `[[F,F,F],[F,F,T],[F,T,F]]`. -/
theorem partition_network_sets_diagonal_true :
    (partition_network threeIdx [[0], [1, 2]]).2 = none
    ∧ (partition_network threeIdx [[0], [1, 2]]).1.communication_matrix
        = [[true, false, false], [false, true, true], [false, true, true]] := by
  decide

/-- C3: after `update_network` on three nodes the communication matrix is
all-`True`, including the diagonal — the claim (and the repository's own
`test_update_network`) expects `False` on the diagonal. -/
theorem update_network_matrix_all_true :
    threeNodes.communication_matrix
      = [[true, true, true], [true, true, true], [true, true, true]] := by
  decide

/-- C4: after `update_network` on the three test nodes (peer ports 10/11/12,
rpc ports 40/41/42) the port dictionary maps the rpc ports, not the peer
ports: it is 40/41/42 to 0/1/2, and looking up peer port 10 finds nothing —
the claim (and the repository's own `test_update_network`) expects
`10 -> 0, 11 -> 1, 12 -> 2`. -/
theorem update_network_port_dict_uses_rpc_port :
    threeNodes.port_dict = [(40, 0), (41, 1), (42, 2)]
    ∧ dictLookup threeNodes.port_dict 10 = none
    ∧ dictLookup threeNodes.port_dict 40 = some 0 := by
  decide

/-- C5 (counterexample): on a 3-node network whose ports are 10, 11, 12, the
call `partition_network [[0], [1, 2]]` raises `ValueError` (leaving the state
unchanged) even though the union of the parts is exactly the multiset of node
identifiers 0..2 — the validity check compares against the node ports, not
the indices `0..n-1`. -/
theorem partition_network_rejects_index_cover :
    (partition_network threePorts [[0], [1, 2]]).2 = some PyErr.valueError
    ∧ (partition_network threePorts [[0], [1, 2]]).1 = threePorts
    ∧ (flatten [[0], [1, 2]]).Perm [0, 1, 2] := by
  decide

/-- C6: `apply_network_partition` performs no self-pair check: with source
and destination both resolving to index 0 (port 10 twice) it returns the
action unchanged (the diagonal is true after `update_network`) instead of
raising an InvalidArgument error. -/
theorem apply_network_partition_self_pair_returns_action :
    apply_network_partition threePorts 5 10 10 = Except.ok 5 := rfl

/-- C9: delivering ledger 5 to `iterAtGoal` advances the iteration without
error (`_reset_values` clears the ledger validation map but leaves the
validator node list installed); a late accepted-ledger event delivered after
that reset then raises `KeyError` — the in-lock guard only checks the
validator list, which is never uninstalled, so the observer does not return
without effect as claimed. -/
theorem on_status_change_after_reset_raises_keyError :
    transitionOut.err = none
    ∧ transitionOut.st.validatorNodes = some [node_0]
    ∧ transitionOut.st.ledgerValidationMap = []
    ∧ (on_status_change transitionOut.st lateStatus2 0 1 50).err
        = some PyErr.keyError := by
  decide

/-- Unfolding equation for `log_rows`: it writes exactly the longest prefix
of rows whose lengths match the column count, and reports `ValueError` iff
some row mismatches. -/
theorem log_rows_eq (rows : List (List String)) (lg : CSVLogger) :
    log_rows lg rows =
      ({ lg with written :=
          lg.written ++ rows.takeWhile (fun r => r.length == lg.columns.length) }
      , if rows.all (fun r => r.length == lg.columns.length) then none
        else some PyErr.valueError) := by
  induction rows generalizing lg with
  | nil => simp [log_rows]
  | cons r rest ih =>
    by_cases hr : lg.columns.length = r.length
    · have hrow : log_row lg r = Except.ok { lg with written := lg.written ++ [r] } := by
        simp [log_row, hr]
      simp only [log_rows, hrow, ih, List.takeWhile, List.all]
      simp [hr.symm, List.append_assoc]
    · have hrow : log_row lg r = Except.error PyErr.valueError := by
        simp [log_row, hr]
      have hne : (r.length == lg.columns.length) = false := by
        simp [Ne.symm hr]
      simp [log_rows, hrow, List.takeWhile, List.all, hne]

/-- C10: `log_row` raises `ValueError` exactly when the row length differs
from the column count, and `log_rows` appends exactly the prefix of rows up
to (excluding) the first mismatched row, raising `ValueError` iff there is
one; a matching row is appended verbatim, a mismatching one writes
nothing. -/
theorem log_row_length_check (lg : CSVLogger) :
    (∀ rows, log_rows lg rows =
      ({ lg with written :=
          lg.written ++ rows.takeWhile (fun r => r.length == lg.columns.length) }
      , if rows.all (fun r => r.length == lg.columns.length) then none
        else some PyErr.valueError))
    ∧ (∀ row, log_row lg row = Except.error PyErr.valueError
        ↔ row.length ≠ lg.columns.length) := by
  refine ⟨fun rows => log_rows_eq rows lg, fun row => ?_⟩
  by_cases h : lg.columns.length = row.length
  · simp [log_row, h]
  · simp [log_row, h, Ne.symm h]

/-- Characterisation of the Python `set(a) == set(b)` test. -/
theorem setEqB_iff (a b : List Nat) :
    setEqB a b = true ↔ ((∀ x ∈ a, x ∈ b) ∧ ∀ x ∈ b, x ∈ a) := by
  simp [setEqB, List.all_eq_true]

/-- A single matrix-cell assignment succeeds and preserves the dictionary,
node count and matrix shape, provided both ports resolve to in-range
indices. -/
theorem setCell_ok (D : List (Nat × Nat)) (N : Nat) (s : StrategyState) (ip jp : Nat)
    (hd : s.port_dict = D) (hn : s.node_amount = N)
    (hm : MatrixWF s.communication_matrix N)
    (hi : portOkB D N ip = true) (hj : portOkB D N jp = true) :
    ∃ s', setCell s ip jp = (s', none) ∧ s'.port_dict = D ∧ s'.node_amount = N
      ∧ MatrixWF s'.communication_matrix N := by
  unfold portOkB at hi hj
  cases hdi : dictLookup D ip with
  | none => rw [hdi] at hi; simp at hi
  | some i =>
  cases hdj : dictLookup D jp with
  | none => rw [hdj] at hj; simp at hj
  | some j =>
  rw [hdi] at hi
  rw [hdj] at hj
  simp only [decide_eq_true_eq] at hi hj
  have hilt : i < s.communication_matrix.length := by rw [hm.1]; exact hi
  cases hget : s.communication_matrix.get? i with
  | none =>
    exfalso
    rw [List.get?_eq_none] at hget
    omega
  | some row =>
    have hrowmem : row ∈ s.communication_matrix := List.get?_mem hget
    have hrowlen : row.length = N := hm.2 row hrowmem
    have hjrow : j < row.length := by rw [hrowlen]; exact hj
    refine ⟨{ s with communication_matrix :=
        s.communication_matrix.set i (row.set j true) }, ?_, hd, hn, ?_, ?_⟩
    · simp only [setCell, hd, hdi, hdj, hget, hjrow, if_true]
    · simp [hm.1]
    · intro r hr
      rcases List.mem_or_eq_of_mem_set hr with h | h
      · exact hm.2 r h
      · rw [h]; simp [hrowlen]

/-- The inner loop of `partition_network` succeeds on good ports. -/
theorem setCells_ok (D : List (Nat × Nat)) (N : Nat) (js : List Nat) :
    ∀ (s : StrategyState) (ip : Nat),
      s.port_dict = D → s.node_amount = N → MatrixWF s.communication_matrix N →
      portOkB D N ip = true → (∀ j ∈ js, portOkB D N j = true) →
      ∃ s', setCells s ip js = (s', none) ∧ s'.port_dict = D ∧ s'.node_amount = N
        ∧ MatrixWF s'.communication_matrix N := by
  induction js with
  | nil => intro s ip hd hn hm _ _; exact ⟨s, rfl, hd, hn, hm⟩
  | cons j js ih =>
    intro s ip hd hn hm hip hall
    obtain ⟨s₁, hc, hd₁, hn₁, hm₁⟩ :=
      setCell_ok D N s ip j hd hn hm hip (hall j (List.mem_cons_self j js))
    obtain ⟨s₂, hr, hd₂, hn₂, hm₂⟩ :=
      ih s₁ ip hd₁ hn₁ hm₁ hip (fun x hx => hall x (List.mem_cons_of_mem j hx))
    exact ⟨s₂, by simp [setCells, hc, hr], hd₂, hn₂, hm₂⟩

/-- The middle loop of `partition_network` succeeds on good ports. -/
theorem setPart_ok (D : List (Nat × Nat)) (N : Nat) (iports : List Nat) :
    ∀ (part : List Nat) (s : StrategyState),
      s.port_dict = D → s.node_amount = N → MatrixWF s.communication_matrix N →
      (∀ i ∈ iports, portOkB D N i = true) → (∀ j ∈ part, portOkB D N j = true) →
      ∃ s', setPart s iports part = (s', none) ∧ s'.port_dict = D ∧ s'.node_amount = N
        ∧ MatrixWF s'.communication_matrix N := by
  induction iports with
  | nil => intro part s hd hn hm _ _; exact ⟨s, rfl, hd, hn, hm⟩
  | cons i iports ih =>
    intro part s hd hn hm hall hpart
    obtain ⟨s₁, hc, hd₁, hn₁, hm₁⟩ :=
      setCells_ok D N part s i hd hn hm (hall i (List.mem_cons_self i iports)) hpart
    obtain ⟨s₂, hr, hd₂, hn₂, hm₂⟩ :=
      ih part s₁ hd₁ hn₁ hm₁ (fun x hx => hall x (List.mem_cons_of_mem i hx)) hpart
    exact ⟨s₂, by simp [setPart, hc, hr], hd₂, hn₂, hm₂⟩

/-- The outer loop of `partition_network` succeeds on good ports. -/
theorem setParts_ok (D : List (Nat × Nat)) (N : Nat) (ps : List (List Nat)) :
    ∀ (s : StrategyState),
      s.port_dict = D → s.node_amount = N → MatrixWF s.communication_matrix N →
      (∀ p ∈ ps, ∀ x ∈ p, portOkB D N x = true) →
      ∃ s', setParts s ps = (s', none) ∧ s'.port_dict = D ∧ s'.node_amount = N
        ∧ MatrixWF s'.communication_matrix N := by
  induction ps with
  | nil => intro s hd hn hm _; exact ⟨s, rfl, hd, hn, hm⟩
  | cons p ps ih =>
    intro s hd hn hm hall
    obtain ⟨s₁, hc, hd₁, hn₁, hm₁⟩ :=
      setPart_ok D N p p s hd hn hm (hall p (List.mem_cons_self p ps))
        (hall p (List.mem_cons_self p ps))
    obtain ⟨s₂, hr, hd₂, hn₂, hm₂⟩ :=
      ih s₁ hd₁ hn₁ hm₁ (fun q hq x hx => hall q (List.mem_cons_of_mem p hq) x hx)
    exact ⟨s₂, by simp [setParts, hc, hr], hd₂, hn₂, hm₂⟩

/-- C5 (amended): on a network whose current flattened partitions are the
(duplicate-free) node ports, with each port resolving to an in-range matrix
index, `partition_network(parts)` raises no error iff the union of `parts` is
exactly the multiset of current node ports, and otherwise it raises
`ValueError` leaving the state unchanged. -/
theorem partition_network_cover (s : StrategyState) (parts : List (List Nat))
    (h₁ : (flatten s.network_partitions).Nodup)
    (h₂ : (flatten s.network_partitions).length = s.node_amount)
    (h₃ : (flatten s.network_partitions).all
        (fun p => portOkB s.port_dict s.node_amount p) = true) :
    ((partition_network s parts).2 = none
      ↔ (flatten parts).Perm (flatten s.network_partitions))
    ∧ ((partition_network s parts).2 ≠ none →
        partition_network s parts = (s, some PyErr.valueError)) := by
  by_cases hp : (flatten parts).Perm (flatten s.network_partitions)
  · have hset : setEqB (flatten parts) (flatten s.network_partitions) = true := by
      rw [setEqB_iff]
      exact ⟨fun x hx => hp.mem_iff.mp hx, fun x hx => hp.mem_iff.mpr hx⟩
    have hlen : ((flatten parts).length == s.node_amount) = true := by
      simp [hp.length_eq, h₂]
    have hcond : (setEqB (flatten parts) (flatten s.network_partitions)
        && ((flatten parts).length == s.node_amount)) = true := by
      rw [hset, hlen]; rfl
    have hallp : ∀ p ∈ parts, ∀ x ∈ p, portOkB s.port_dict s.node_amount x = true := by
      intro p hpmem x hx
      have hxf : x ∈ flatten parts := by
        unfold flatten
        exact List.mem_flatten.mpr ⟨p, hpmem, hx⟩
      exact List.all_eq_true.mp h₃ x (hp.mem_iff.mp hxf)
    have hmw : MatrixWF
        (List.replicate s.node_amount (List.replicate s.node_amount false))
        s.node_amount := by
      constructor
      · simp
      · intro r hr
        rw [List.eq_of_mem_replicate hr]
        simp
    obtain ⟨s', hrun, _, _, _⟩ := setParts_ok s.port_dict s.node_amount parts
      (StrategyState.mk s.validator_node_list s.node_amount parts s.port_dict
        (List.replicate s.node_amount (List.replicate s.node_amount false))
        s.auto_partition)
      rfl rfl hmw hallp
    have hres : partition_network s parts = (s', none) := by
      simp only [partition_network, hcond, if_true]
      exact hrun
    rw [hres]
    exact ⟨by simp [hp], fun hne => absurd rfl hne⟩
  · have hcond : (setEqB (flatten parts) (flatten s.network_partitions)
        && ((flatten parts).length == s.node_amount)) = false := by
      by_contra hcontra
      have hcond' := Bool.ne_false_iff.mp hcontra
      obtain ⟨hset, hlen⟩ := Bool.and_eq_true_iff.mp hcond'
      rw [setEqB_iff] at hset
      have hlen' : (flatten parts).length = s.node_amount := by simpa using hlen
      have hsub : flatten s.network_partitions ⊆ flatten parts :=
        fun x hx => hset.2 x hx
      have hsp := List.subperm_of_subset h₁ hsub
      have hple : (flatten parts).length ≤ (flatten s.network_partitions).length := by
        rw [hlen', h₂]
      exact hp (hsp.perm_of_length_le hple).symm
    have hres : partition_network s parts = (s, some PyErr.valueError) := by
      simp [partition_network, hcond]
    rw [hres]
    constructor
    · constructor
      · intro h; simp at h
      · intro h; exact absurd h hp
    · intro _; rfl

/-- Witness for `partition_network_cover`: on the 3-node network with ports
10, 11, 12, the port cover `[[11, 10], [12]]` is accepted. -/
theorem partition_network_cover_witness :
    (flatten threePorts.network_partitions).Nodup
    ∧ (flatten threePorts.network_partitions).length = threePorts.node_amount
    ∧ (flatten threePorts.network_partitions).all
        (fun p => portOkB threePorts.port_dict threePorts.node_amount p) = true
    ∧ (partition_network threePorts [[11, 10], [12]]).2 = none :=
  ⟨by decide, by decide, by decide,
    (partition_network_cover threePorts [[11, 10], [12]]
      (by decide) (by decide) (by decide)).1.mpr (by decide)⟩

theorem dictLookup_dictSet_self {β : Type} (m : List (Nat × β)) (k : Nat) (v e : β)
    (h : dictLookup m k = some e) : dictLookup (dictSet m k v) k = some v := by
  induction m with
  | nil => simp [dictLookup] at h
  | cons kv rest ih =>
    obtain ⟨k', v'⟩ := kv
    by_cases hk : k' = k
    · simp [dictSet, dictLookup, hk]
    · simp only [dictLookup, hk, if_neg hk] at h
      simp [dictSet, dictLookup, hk, ih h]

theorem dictLookup_dictSet_ne {β : Type} (m : List (Nat × β)) (k i : Nat) (v : β)
    (h : i ≠ k) : dictLookup (dictSet m k v) i = dictLookup m i := by
  induction m with
  | nil => simp [dictSet]
  | cons kv rest ih =>
    obtain ⟨k', v'⟩ := kv
    by_cases hk : k' = k
    · subst hk
      simp [dictSet, dictLookup, Ne.symm h]
    · by_cases hki : k' = i
      · simp [dictSet, dictLookup, hk, hki, h]
      · simp [dictSet, dictLookup, hk, hki, ih]

theorem add_iteration_map (s : IterState) :
    (add_iteration s).st.ledgerValidationMap = s.ledgerValidationMap := by
  simp only [add_iteration, start_timeout_timer]
  split
  · rfl
  · split
    · rfl
    · split <;> rfl

theorem timer_fst_map (c : Bool) (x : IterState) :
    ((if c = true then start_timeout_timer x else (x, [])).1).ledgerValidationMap
      = x.ledgerValidationMap := by
  cases c <;> simp [start_timeout_timer]

theorem status_update_step_map (s : IterState) (st : TMStatusChange) (f now : Nat) :
    (status_update_step s st f now).1.ledgerValidationMap = s.ledgerValidationMap
    ∨ (st.newEvent = 1 ∧ ∃ info, dictLookup s.ledgerValidationMap f = some info
        ∧ info.seq < st.ledgerSeq
        ∧ (status_update_step s st f now).1.ledgerValidationMap
            = dictSet s.ledgerValidationMap f { seq := st.ledgerSeq, time := now }) := by
  simp only [status_update_step]
  split
  · rename_i hev
    cases hlk : dictLookup s.ledgerValidationMap f with
    | none => simp [hlk]
    | some info =>
      simp only [hlk]
      split
      · rename_i hlt
        right
        refine ⟨hev, info, rfl, hlt, ?_⟩
        exact timer_fst_map s.ledgerTimeout _
      · left; rfl
  · left; rfl

theorem status_advance_step_map (s₁ : IterState) (effs₁ : List Eff) :
    (status_advance_step s₁ effs₁).st.ledgerValidationMap = s₁.ledgerValidationMap
    ∨ (status_advance_step s₁ effs₁).st.ledgerValidationMap = [] := by
  simp only [status_advance_step]
  split
  · left; rfl
  · split
    · right
      rw [add_iteration_map]
      rfl
    · left; rfl

theorem on_status_change_map_cases (s : IterState) (st : TMStatusChange)
    (f t now : Nat) :
    (on_status_change s st f t now).st.ledgerValidationMap = s.ledgerValidationMap
    ∨ (on_status_change s st f t now).st.ledgerValidationMap = []
    ∨ (st.newEvent = 1 ∧ ∃ info, dictLookup s.ledgerValidationMap f = some info
        ∧ info.seq < st.ledgerSeq
        ∧ (on_status_change s st f t now).st.ledgerValidationMap
            = dictSet s.ledgerValidationMap f { seq := st.ledgerSeq, time := now }) := by
  simp only [on_status_change]
  split
  · left; rfl
  · split
    · rename_i s₁ effs₁ e heq
      have hst : (status_update_step s st f now).1 = s₁ := by rw [heq]
      rcases status_update_step_map s st f now with hsame | ⟨hev, info, hlk, hlt, hupd⟩
      · left
        show s₁.ledgerValidationMap = s.ledgerValidationMap
        rw [← hst]; exact hsame
      · right; right
        refine ⟨hev, info, hlk, hlt, ?_⟩
        show s₁.ledgerValidationMap = _
        rw [← hst]; exact hupd
    · rename_i s₁ effs₁ heq
      have hst : (status_update_step s st f now).1 = s₁ := by rw [heq]
      rcases status_advance_step_map s₁ effs₁ with hadv | hadv
      · rcases status_update_step_map s st f now with hsame | ⟨hev, info, hlk, hlt, hupd⟩
        · left; rw [hadv, ← hst]; exact hsame
        · right; right
          refine ⟨hev, info, hlk, hlt, ?_⟩
          rw [hadv, ← hst]; exact hupd
      · right; left; exact hadv

theorem status_step_entry (s : IterState) (st : TMStatusChange) (f t now : Nat)
    (i : Nat) (e' : LedgerValidationInfo)
    (h : dictLookup (on_status_change s st f t now).st.ledgerValidationMap i = some e') :
    ∃ e, dictLookup s.ledgerValidationMap i = some e ∧ e.seq ≤ e'.seq := by
  rcases on_status_change_map_cases s st f t now with hc | hc | ⟨hev, info, hlk, hlt, hc⟩
  · rw [hc] at h
    exact ⟨e', h, Nat.le_refl _⟩
  · rw [hc] at h
    simp [dictLookup] at h
  · rw [hc] at h
    by_cases hif : i = f
    · subst hif
      rw [dictLookup_dictSet_self s.ledgerValidationMap i _ info hlk] at h
      refine ⟨info, hlk, ?_⟩
      have he' : e' = { seq := st.ledgerSeq, time := now } := (Option.some.injEq _ _).mp h.symm
      rw [he']
      exact Nat.le_of_lt hlt
    · rw [dictLookup_dictSet_ne s.ledgerValidationMap f i _ hif] at h
      exact ⟨e', h, Nat.le_refl _⟩

theorem status_step_update (s : IterState) (st : TMStatusChange) (f t now i : Nat)
    (e e' : LedgerValidationInfo)
    (h : dictLookup s.ledgerValidationMap i = some e)
    (h' : dictLookup (on_status_change s st f t now).st.ledgerValidationMap i = some e')
    (hne : e' ≠ e) :
    st.newEvent = 1 ∧ i = f ∧ e.seq < st.ledgerSeq
      ∧ e'.seq = st.ledgerSeq ∧ e'.time = now := by
  rcases on_status_change_map_cases s st f t now with hc | hc | ⟨hev, info, hlk, hlt, hc⟩
  · rw [hc, h] at h'
    exact absurd ((Option.some.injEq _ _).mp h').symm hne
  · rw [hc] at h'
    simp [dictLookup] at h'
  · rw [hc] at h'
    by_cases hif : i = f
    · subst hif
      rw [hlk] at h
      have he : e = info := ((Option.some.injEq _ _).mp h).symm
      rw [dictLookup_dictSet_self s.ledgerValidationMap i _ info hlk] at h'
      have he' : e' = { seq := st.ledgerSeq, time := now } := (Option.some.injEq _ _).mp h'.symm
      subst he
      rw [he']
      exact ⟨hev, rfl, hlt, rfl, rfl⟩
    · rw [dictLookup_dictSet_ne s.ledgerValidationMap f i _ hif, h] at h'
      exact absurd ((Option.some.injEq _ _).mp h').symm hne

theorem run_entry (evs : List StatusEvent) :
    ∀ (s : IterState) (i : Nat) (e' : LedgerValidationInfo),
      dictLookup (runStatusChanges s evs).ledgerValidationMap i = some e' →
      ∃ e, dictLookup s.ledgerValidationMap i = some e ∧ e.seq ≤ e'.seq := by
  induction evs with
  | nil => intro s i e' h; exact ⟨e', h, Nat.le_refl _⟩
  | cons ev evs ih =>
    intro s i e' h
    simp only [runStatusChanges] at h
    obtain ⟨e₁, h₁, hle₁⟩ := ih _ i e' h
    obtain ⟨e₀, h₀, hle₀⟩ := status_step_entry s ev.status ev.fromId ev.toId ev.now i e₁ h₁
    exact ⟨e₀, h₀, Nat.le_trans hle₀ hle₁⟩

/-- C7: across any sequence of `on_status_change` calls, each node's stored
ledger sequence is monotonically non-decreasing; and within a single call the
stored entry (sequence and time) changes only when the event is an accepted
ledger (`newEvent == 1`) from that node with a `ledgerSeq` strictly greater
than the stored one, in which case it becomes exactly
`(ledgerSeq, now)`. -/
theorem on_status_change_seq_monotone :
    (∀ (s : IterState) (evs : List StatusEvent) (i : Nat)
        (e e' : LedgerValidationInfo),
      dictLookup s.ledgerValidationMap i = some e →
      dictLookup (runStatusChanges s evs).ledgerValidationMap i = some e' →
      e.seq ≤ e'.seq)
    ∧ (∀ (s : IterState) (st : TMStatusChange) (f t now i : Nat)
        (e e' : LedgerValidationInfo),
      dictLookup s.ledgerValidationMap i = some e →
      dictLookup (on_status_change s st f t now).st.ledgerValidationMap i = some e' →
      e' ≠ e →
      st.newEvent = 1 ∧ i = f ∧ e.seq < st.ledgerSeq
        ∧ e'.seq = st.ledgerSeq ∧ e'.time = now) := by
  constructor
  · intro s evs i e e' h h'
    obtain ⟨e₀, h₀, hle⟩ := run_entry evs s i e' h'
    rw [h] at h₀
    rw [(Option.some.injEq _ _).mp h₀]
    exact hle
  · intro s st f t now i e e' h h' hne
    exact status_step_update s st f t now i e e' h h' hne

/-- Witness for `on_status_change_seq_monotone`: delivering accepted ledgers
3 then 2 from node 0 to the concrete time-based state leaves node 0's stored
sequence at 3, which is at least the initial 1. -/
theorem on_status_change_seq_monotone_witness :
    dictLookup lviExample.ledgerValidationMap 0 = some { seq := 1, time := 0 }
    ∧ dictLookup (runStatusChanges lviExample [ev1, ev2]).ledgerValidationMap 0
        = some { seq := 3, time := 10 }
    ∧ ({ seq := 1, time := 0 } : LedgerValidationInfo).seq
        ≤ ({ seq := 3, time := 10 } : LedgerValidationInfo).seq :=
  ⟨by decide, by decide,
    on_status_change_seq_monotone.1 lviExample [ev1, ev2] 0
      { seq := 1, time := 0 } { seq := 3, time := 10 } (by decide) (by decide)⟩

/-- C8: with the spec checker, log directory and server installed,
`add_iteration` raises nothing, increments `cur_iteration` by exactly 1, runs
the spec checker over the previous iteration iff the incremented counter
exceeds 1, and then either (counter still within `max_iterations`) stops the
interceptor, creates a fresh result logger for the new iteration, starts the
interceptor and arms the timeout timer, or (counter beyond `max_iterations`)
stops the interceptor and the validator containers, aggregates the spec
checks and stops the RPC server gracefully. -/
theorem add_iteration_behaviour (s : IterState) (h₁ : s.specCheckerSet = true)
    (h₂ : s.logDirSet = true) (h₃ : s.serverSet = true) :
    (add_iteration s).err = none
    ∧ (add_iteration s).st.curIteration = s.curIteration + 1
    ∧ (Eff.specCheck s.curIteration ∈ (add_iteration s).effs ↔ s.curIteration + 1 > 1)
    ∧ (s.curIteration + 1 ≤ s.maxIterations →
        (add_iteration s).effs =
          (if s.curIteration + 1 > 1 then [Eff.specCheck s.curIteration] else [])
            ++ [Eff.stopInterceptor, Eff.newResultLogger (s.curIteration + 1),
                Eff.startInterceptor]
            ++ (if s.timerActive then [Eff.cancelTimer] else [])
            ++ [Eff.startTimer])
    ∧ (s.curIteration + 1 > s.maxIterations →
        (add_iteration s).effs =
          (if s.curIteration + 1 > 1 then [Eff.specCheck s.curIteration] else [])
            ++ [Eff.stopInterceptor, Eff.cleanupContainers, Eff.aggregateSpecChecks,
                Eff.terminateServer]) := by
  by_cases hc : s.curIteration + 1 ≤ s.maxIterations
  · by_cases hsp : s.curIteration + 1 > 1
    · refine ⟨?_, ?_, ?_, fun _ => ?_, fun hgt => absurd hc (by omega)⟩ <;>
        simp [add_iteration, start_timeout_timer, h₁, h₂, h₃, hc, hsp]
    · refine ⟨?_, ?_, ?_, fun _ => ?_, fun hgt => absurd hc (by omega)⟩ <;>
        simp [add_iteration, start_timeout_timer, h₁, h₂, h₃, hc, hsp]
  · by_cases hsp : s.curIteration + 1 > 1
    · refine ⟨?_, ?_, ?_, fun hle => absurd hle hc, fun _ => ?_⟩ <;>
        simp [add_iteration, start_timeout_timer, h₁, h₂, h₃, hc, hsp]
    · refine ⟨?_, ?_, ?_, fun hle => absurd hle hc, fun _ => ?_⟩ <;>
        simp [add_iteration, start_timeout_timer, h₁, h₂, h₃, hc, hsp]

/-- Witness for `add_iteration_behaviour` at the concrete state
`lviExample`. -/
theorem add_iteration_behaviour_witness :
    (lviExample.specCheckerSet = true ∧ lviExample.logDirSet = true
      ∧ lviExample.serverSet = true)
    ∧ (add_iteration lviExample).err = none :=
  ⟨⟨rfl, rfl, rfl⟩, (add_iteration_behaviour lviExample rfl rfl rfl).1⟩
